import Mathlib

/-!
Verification of the drop-out regression system's ingestion/fusion/rule core
(src/ingestion.py and src/rules.py), as a shallow embedding.

Modelling conventions:
* pandas DataFrames become Lean lists of row structures; a frame also carries
  Boolean flags recording which canonical columns are present after mapping,
  since `_aggregate_frames` branches on column presence.
* floats become rationals (ℚ); the claims under check are exact-value and
  ordering facts that do not depend on floating-point rounding.
* a raw numeric cell is `Option ℚ`: `none` stands for a value that
  `pd.to_numeric(errors = "coerce")` turns into NaN (unparseable), `some q`
  for a parseable value.
* a raw attendance `present` cell is kept as its string form, mirroring
  `astype(str)` in `_auto_map_attendance`.
* row order of the fused output is not modelled (pandas sorts group keys);
  every claim checked here is order-independent.
-/

namespace DropoutRisk

/-! ### Value coercion (src/ingestion.py, `_auto_map_attendance` lines 97-101) -/

/-- The fixed token map applied to the trimmed, lower-cased string form of a
`present` cell: `{"1": 1, "0": 0, "true": 1, "false": 0, "yes": 1, "no": 0,
"y": 1, "n": 0, "p": 1, "a": 0}`; `none` models a token outside the map
(which `series.map` sends to NaN). -/
def presentTokenMap (t : String) : Option Int :=
  if t = "1" then some 1
  else if t = "0" then some 0
  else if t = "true" then some 1
  else if t = "false" then some 0
  else if t = "yes" then some 1
  else if t = "no" then some 0
  else if t = "y" then some 1
  else if t = "n" then some 0
  else if t = "p" then some 1
  else if t = "a" then some 0
  else none

/-- `str.strip()`: drop whitespace characters from both ends of the string,
acting on the character list. -/
def pyStrip (s : String) : String :=
  ⟨((s.data.dropWhile Char.isWhitespace).reverse.dropWhile Char.isWhitespace).reverse⟩

/-- `str.lower()`: lower-case every character, acting on the character list. -/
def pyLower (s : String) : String :=
  ⟨s.data.map Char.toLower⟩

/-- Coercion of one raw `present` cell:
`astype(str).str.strip().str.lower()`, token map, then
`pd.to_numeric(..).fillna(0).astype(int)` (the unmapped / NaN case becomes 0). -/
def coercePresent (s : String) : Int :=
  (presentTokenMap (pyLower (pyStrip s))).getD 0

/-- Coercion of one raw numeric cell (`score`, `amount_due`, `amount_paid`):
`pd.to_numeric(errors = "coerce").fillna(0.0)` — an unparseable cell (`none`)
becomes 0. -/
def coerceNum (v : Option ℚ) : ℚ :=
  v.getD 0

/-! ### Rule engine (src/rules.py, `score_rules`) -/

/-- Threshold configuration, with the defaults of `RuleThresholds`. -/
structure RuleThresholds where
  min_attendance_rate : ℚ := 4 / 5
  min_avg_score : ℚ := 50
  max_balance_outstanding : ℚ := 0
deriving DecidableEq

/-- One row of the fused student-level dataset produced by
`_aggregate_frames` (numeric columns only; the optional name/language
columns play no part in the claims checked here). -/
structure FusedRow where
  sid : Nat
  days_present : ℚ
  days_total : ℚ
  attendance_rate : ℚ
  avg_score : ℚ
  amount_due_total : ℚ
  amount_paid_total : ℚ
  balance_outstanding : ℚ
deriving DecidableEq

/-- A fused row extended with the columns `score_rules` adds. -/
structure ScoredRow where
  base : FusedRow
  r_attendance : Int
  r_scores : Int
  r_fees : Int
  rule_risk_points : Int
  rule_risk_level : Option String
deriving DecidableEq

/-- `pd.cut(points, bins := [-1, 0, 1, 3], labels := ["Low", "Medium", "High"])`
for a single value: half-open-on-the-left bins (−1, 0], (0, 1], (1, 3];
a value outside every bin becomes NaN (`none`). -/
def riskLevel (p : Int) : Option String :=
  if -1 < p ∧ p ≤ 0 then some "Low"
  else if 0 < p ∧ p ≤ 1 then some "Medium"
  else if 1 < p ∧ p ≤ 3 then some "High"
  else none

/-- `score_rules` on a single row: the three indicator columns, their sum,
and the binned risk level. -/
def scoreRow (t : RuleThresholds) (r : FusedRow) : ScoredRow :=
  let rAtt : Int := if r.attendance_rate < t.min_attendance_rate then 1 else 0
  let rSco : Int := if r.avg_score < t.min_avg_score then 1 else 0
  let rFee : Int := if r.balance_outstanding > t.max_balance_outstanding then 1 else 0
  { base := r
    r_attendance := rAtt
    r_scores := rSco
    r_fees := rFee
    rule_risk_points := rAtt + rSco + rFee
    rule_risk_level := riskLevel (rAtt + rSco + rFee) }

/-- `score_rules` over the whole fused dataset. -/
def score_rules (t : RuleThresholds) (rows : List FusedRow) : List ScoredRow :=
  rows.map (scoreRow t)

/-! ### Mapped frames: the inputs of `_aggregate_frames` (src/ingestion.py lines 211-257) -/

/-- One attendance row after auto-mapping: `present` is already an integer
(`_auto_map_attendance` coerced it; the re-coercion at line 218 of
`_aggregate_frames` is the identity on integers). -/
structure AttRow where
  sid : Nat
  present : Int
deriving DecidableEq

/-- One assessments row after auto-mapping. -/
structure AssRow where
  sid : Nat
  score : ℚ
deriving DecidableEq

/-- One fees row after auto-mapping. -/
structure FeeRow where
  sid : Nat
  due : ℚ
  paid : ℚ
deriving DecidableEq

/-- Attendance frame handed to `_aggregate_frames`: the flags record whether
the canonical columns exist after mapping (`"present" in att.columns`,
`"student_id" in att.columns`). -/
structure AttFrame where
  hasStudentId : Bool
  hasPresent : Bool
  rows : List AttRow
deriving DecidableEq

/-- Assessments frame handed to `_aggregate_frames`; `hasScore` records
whether a `score` column exists (when it does not, line 228 synthesizes it
as 0.0). -/
structure AssFrame where
  hasStudentId : Bool
  hasScore : Bool
  rows : List AssRow
deriving DecidableEq

/-- Fees frame handed to `_aggregate_frames`; `hasDue` / `hasPaid` record
whether `amount_due` / `amount_paid` exist (lines 235-238 synthesize the
missing ones as 0.0). -/
structure FeeFrame where
  hasStudentId : Bool
  hasDue : Bool
  hasPaid : Bool
  rows : List FeeRow
deriving DecidableEq

/-! ### Per-source aggregation (`_aggregate_frames` lines 218-249) -/

/-- Group-key list of a groupby on `student_id`: the distinct sids, in first
occurrence order (pandas sorts them; order is irrelevant to the claims). -/
def sidsOf (l : List Nat) : List Nat := l.dedup

/-- `days_present` for one student: `att.groupby("student_id")["present"].sum()`. -/
def daysPresentOf (rows : List AttRow) (i : Nat) : Int :=
  ((rows.filter fun r => r.sid == i).map (·.present)).sum

/-- `days_total` for one student: `att.groupby("student_id")["present"].count()`. -/
def daysTotalOf (rows : List AttRow) (i : Nat) : Nat :=
  (rows.filter fun r => r.sid == i).length

/-- `attendance_rate` for one student with attendance rows:
`days_present / days_total` (line 222; the `.fillna(0.0)` there covers the
0/0 case, which matches ℚ division's 0-denominator convention). -/
def attendanceRateOf (rows : List AttRow) (i : Nat) : ℚ :=
  (daysPresentOf rows i : ℚ) / (daysTotalOf rows i : ℚ)

/-- The effective score of an assessments row: line 228 synthesizes the
column as 0.0 when it is absent. -/
def effScore (hasScore : Bool) (r : AssRow) : ℚ :=
  if hasScore then r.score else 0

/-- `avg_score` for one student with assessment rows:
`ass.groupby("student_id")["score"].mean()`. -/
def avgScoreOf (hasScore : Bool) (rows : List AssRow) (i : Nat) : ℚ :=
  (((rows.filter fun r => r.sid == i).map (effScore hasScore)).sum) /
    ((rows.filter fun r => r.sid == i).length : ℚ)

/-- The effective `amount_due` of a fees row (line 236 synthesizes 0.0 when
the column is absent). -/
def effDue (hasDue : Bool) (r : FeeRow) : ℚ :=
  if hasDue then r.due else 0

/-- The effective `amount_paid` of a fees row (line 238 synthesizes 0.0 when
the column is absent). -/
def effPaid (hasPaid : Bool) (r : FeeRow) : ℚ :=
  if hasPaid then r.paid else 0

/-- `amount_due_total` for one student: `g["amount_due"].sum()`. -/
def dueTotalOf (hasDue : Bool) (rows : List FeeRow) (i : Nat) : ℚ :=
  ((rows.filter fun r => r.sid == i).map (effDue hasDue)).sum

/-- `amount_paid_total` for one student: `g["amount_paid"].sum()`. -/
def paidTotalOf (hasPaid : Bool) (rows : List FeeRow) (i : Nat) : ℚ :=
  ((rows.filter fun r => r.sid == i).map (effPaid hasPaid)).sum

/-- `balance_outstanding` for one student with fee rows:
`(amount_due_total - amount_paid_total).clip(lower = 0)` (lines 247-249). -/
def balanceOf (hasDue hasPaid : Bool) (rows : List FeeRow) (i : Nat) : ℚ :=
  max 0 (dueTotalOf hasDue rows i - paidTotalOf hasPaid rows i)

/-! ### Fusion (`_aggregate_frames` lines 252-257) -/

/-- The index of the outer join: the union of the three groupby key sets. -/
def fuseIds (att : AttFrame) (ass : AssFrame) (fee : FeeFrame) : List Nat :=
  (sidsOf (att.rows.map (·.sid)) ++ sidsOf (ass.rows.map (·.sid)) ++
    sidsOf (fee.rows.map (·.sid))).dedup

/-- One row of the outer join, after `.fillna(0)`: a student absent from a
source gets 0 for every column that source contributes. -/
def fusedRowFor (att : AttFrame) (ass : AssFrame) (fee : FeeFrame) (i : Nat) : FusedRow :=
  { sid := i
    days_present :=
      if i ∈ sidsOf (att.rows.map (·.sid)) then (daysPresentOf att.rows i : ℚ) else 0
    days_total :=
      if i ∈ sidsOf (att.rows.map (·.sid)) then (daysTotalOf att.rows i : ℚ) else 0
    attendance_rate :=
      if i ∈ sidsOf (att.rows.map (·.sid)) then attendanceRateOf att.rows i else 0
    avg_score :=
      if i ∈ sidsOf (ass.rows.map (·.sid)) then avgScoreOf ass.hasScore ass.rows i else 0
    amount_due_total :=
      if i ∈ sidsOf (fee.rows.map (·.sid)) then dueTotalOf fee.hasDue fee.rows i else 0
    amount_paid_total :=
      if i ∈ sidsOf (fee.rows.map (·.sid)) then paidTotalOf fee.hasPaid fee.rows i else 0
    balance_outstanding :=
      if i ∈ sidsOf (fee.rows.map (·.sid)) then balanceOf fee.hasDue fee.hasPaid fee.rows i
      else 0 }

/-- The merged student-level table (`att_agg.join(ass_agg, how = "outer")
.join(fee_agg, how = "outer").reset_index().fillna(0)`). -/
def fusedRows (att : AttFrame) (ass : AssFrame) (fee : FeeFrame) : List FusedRow :=
  (fuseIds att ass fee).map (fusedRowFor att ass fee)

/-- `_aggregate_frames`: the structural checks of lines 213-216, 225-226 and
233-234 in source order, then the aggregation and outer join. A raised
`KeyError` is modelled as `Except.error` carrying the message. One more
error path lives after the explicit checks: on a fees frame with zero rows,
`fee.groupby("student_id").apply(lambda g: ...)` (lines 241-246) never calls
the lambda and returns a frame without the lambda's columns, so the column
lookup on line 247 raises an uncaught `KeyError("amount_due_total")`; that
is modelled as `.error "amount_due_total"` carrying the missing key. -/
def aggregateFrames (att : AttFrame) (ass : AssFrame) (fee : FeeFrame) :
    Except String (List FusedRow) :=
  if att.hasPresent = false then
    .error "Attendance file must contain a \x27present\x27 or equivalent column (e.g., status, attended, p/a)."
  else if att.hasStudentId = false then
    .error "Attendance file must contain a \x27student_id\x27 column."
  else if ass.hasStudentId = false then
    .error "Assessments file must contain a \x27student_id\x27 column."
  else if fee.hasStudentId = false then
    .error "Fees file must contain a \x27student_id\x27 column."
  else if fee.rows = [] then
    .error "amount_due_total"
  else
    .ok (fusedRows att ass fee)

/-! ### Raw frames and the value-level part of auto-mapping
(`fuse_from_frames`, lines 193-208; value coercion from the `_auto_map_*`
functions) -/

/-- A raw attendance row: the `present` cell in its string form
(`astype(str)` converts whatever the cell held). -/
structure RawAttRow where
  sid : Nat
  present : String
deriving DecidableEq

/-- A raw assessments row: `score` as `pd.to_numeric` sees it (`none` =
unparseable → NaN). -/
structure RawAssRow where
  sid : Nat
  score : Option ℚ
deriving DecidableEq

/-- A raw fees row. -/
structure RawFeeRow where
  sid : Nat
  due : Option ℚ
  paid : Option ℚ
deriving DecidableEq

/-- A raw attendance frame, with flags for which canonical columns the
header auto-mapping managed to produce. -/
structure RawAttFrame where
  hasStudentId : Bool
  hasPresent : Bool
  rows : List RawAttRow
deriving DecidableEq

/-- A raw assessments frame. -/
structure RawAssFrame where
  hasStudentId : Bool
  hasScore : Bool
  rows : List RawAssRow
deriving DecidableEq

/-- A raw fees frame. -/
structure RawFeeFrame where
  hasStudentId : Bool
  hasDue : Bool
  hasPaid : Bool
  rows : List RawFeeRow
deriving DecidableEq

/-- Value part of `_auto_map_attendance` (lines 97-101): coerce `present`
when the column exists; the column is never created when absent. -/
def autoMapAttendanceValues (f : RawAttFrame) : AttFrame :=
  { hasStudentId := f.hasStudentId
    hasPresent := f.hasPresent
    rows := f.rows.map fun r =>
      { sid := r.sid, present := if f.hasPresent then coercePresent r.present else 0 } }

/-- Value part of `_auto_map_assessments` (lines 128-131): coerce `score`
when present, else create it as 0.0 — so the mapped frame always has it. -/
def autoMapAssessmentsValues (f : RawAssFrame) : AssFrame :=
  { hasStudentId := f.hasStudentId
    hasScore := true
    rows := f.rows.map fun r =>
      { sid := r.sid, score := if f.hasScore then coerceNum r.score else 0 } }

/-- Value part of `_auto_map_fees` (lines 162-169): coerce `amount_due` /
`amount_paid` when present, else create them as 0.0. -/
def autoMapFeesValues (f : RawFeeFrame) : FeeFrame :=
  { hasStudentId := f.hasStudentId
    hasDue := true
    hasPaid := true
    rows := f.rows.map fun r =>
      { sid := r.sid
        due := if f.hasDue then coerceNum r.due else 0
        paid := if f.hasPaid then coerceNum r.paid else 0 } }

/-- `fuse_from_frames` (lines 193-208): auto-map the three frames, then
aggregate. -/
def fuseFromFrames (a : RawAttFrame) (s : RawAssFrame) (f : RawFeeFrame) :
    Except String (List FusedRow) :=
  aggregateFrames (autoMapAttendanceValues a) (autoMapAssessmentsValues s)
    (autoMapFeesValues f)

/-! ### Header-name auto-mapping (`_auto_map_attendance` lines 60-96,
`_auto_map_assessments` lines 105-127, `_auto_map_fees` lines 135-161).
A table's header row is a list of (already normalized) column names; each
`for cand in [...]: if cand in df.columns: rename; break` loop becomes one
`renameFirstMatch` step. -/

/-- One candidate loop: find the first candidate present among the headers
and rename it (every occurrence, as `df.rename` does) to the canonical name;
if none matches, leave the headers unchanged. -/
def renameFirstMatch (cands : List String) (canon : String) (cols : List String) :
    List String :=
  match cands.find? fun c => decide (c ∈ cols) with
  | some c => cols.map fun x => if x = c then canon else x
  | none => cols

/-- Candidates for `student_id` (identical in all three mappers). -/
def studentIdCands : List String :=
  ["student_id", "id", "student", "regno", "reg_no", "index_no", "admission_no"]

/-- Candidates for `student_name`. -/
def studentNameCands : List String :=
  ["student_name", "name", "full_name"]

/-- Candidates for `student_language`. -/
def studentLanguageCands : List String :=
  ["language", "lang", "preferred_language", "mother_tongue", "native_language"]

/-- Candidates for `date` in the attendance mapper. -/
def attendanceDateCands : List String :=
  ["date", "attendance_date", "day", "recorded_date"]

/-- Candidates for `present` in the attendance mapper. -/
def presentCands : List String :=
  ["present", "is_present", "attendance", "status", "attended", "present_flag", "p",
    "attendance_mark"]

/-- Candidates for `assessment_name` in the assessments mapper. -/
def assessmentNameCands : List String :=
  ["assessment_name", "exam", "test", "assessment", "component", "name"]

/-- Candidates for `score` in the assessments mapper. -/
def scoreCands : List String :=
  ["score", "marks", "mark", "grade_value", "percentage"]

/-- Candidates for `amount_due` in the fees mapper. -/
def amountDueCands : List String :=
  ["amount_due", "due", "fee_due", "total_due"]

/-- Candidates for `amount_paid` in the fees mapper. -/
def amountPaidCands : List String :=
  ["amount_paid", "paid", "fee_paid", "total_paid"]

/-- Candidates for `due_date` in the fees mapper. -/
def dueDateCands : List String :=
  ["due_date", "deadline", "last_date", "date"]

/-- Header transformation of `_auto_map_attendance`: the five candidate
loops in source order (student_id, student_name, student_language, date,
present). -/
def autoMapAttendanceCols (cols : List String) : List String :=
  renameFirstMatch presentCands "present"
    (renameFirstMatch attendanceDateCands "date"
      (renameFirstMatch studentLanguageCands "student_language"
        (renameFirstMatch studentNameCands "student_name"
          (renameFirstMatch studentIdCands "student_id" cols))))

/-- Header transformation of `_auto_map_assessments`: student_id,
student_name, student_language, assessment_name, score, in source order. -/
def autoMapAssessmentsCols (cols : List String) : List String :=
  renameFirstMatch scoreCands "score"
    (renameFirstMatch assessmentNameCands "assessment_name"
      (renameFirstMatch studentLanguageCands "student_language"
        (renameFirstMatch studentNameCands "student_name"
          (renameFirstMatch studentIdCands "student_id" cols))))

/-- Header transformation of `_auto_map_fees`: student_id, student_name,
student_language, amount_due, amount_paid, due_date, in source order. -/
def autoMapFeesCols (cols : List String) : List String :=
  renameFirstMatch dueDateCands "due_date"
    (renameFirstMatch amountPaidCands "amount_paid"
      (renameFirstMatch amountDueCands "amount_due"
        (renameFirstMatch studentLanguageCands "student_language"
          (renameFirstMatch studentNameCands "student_name"
            (renameFirstMatch studentIdCands "student_id" cols)))))

/-! ### Helper lemmas -/

/-- The risk-points column unfolded to the sum of the three indicators. -/
lemma scoreRow_points_eq (t : RuleThresholds) (r : FusedRow) :
    (scoreRow t r).rule_risk_points =
      (if r.attendance_rate < t.min_attendance_rate then (1 : Int) else 0) +
      (if r.avg_score < t.min_avg_score then (1 : Int) else 0) +
      (if r.balance_outstanding > t.max_balance_outstanding then (1 : Int) else 0) := rfl

/-- The risk level column is the binning of the risk-points column. -/
lemma scoreRow_level_eq (t : RuleThresholds) (r : FusedRow) :
    (scoreRow t r).rule_risk_level = riskLevel (scoreRow t r).rule_risk_points := rfl

/-- Risk points always land on one of the four values 0, 1, 2, 3. -/
lemma scoreRow_points_cases (t : RuleThresholds) (r : FusedRow) :
    (scoreRow t r).rule_risk_points = 0 ∨ (scoreRow t r).rule_risk_points = 1 ∨
    (scoreRow t r).rule_risk_points = 2 ∨ (scoreRow t r).rule_risk_points = 3 := by
  rw [scoreRow_points_eq]
  split_ifs <;> omega

/-- The present-cell coercion only ever produces 0 or 1. -/
lemma coercePresent_cases (s : String) : coercePresent s = 0 ∨ coercePresent s = 1 := by
  unfold coercePresent presentTokenMap
  split_ifs <;> simp

/-- A Boolean that is not false is true. -/
lemma bool_ne_false {b : Bool} (h : ¬b = false) : b = true := by
  cases b
  · exact absurd rfl h
  · rfl

/-- Inversion of a successful `_aggregate_frames` run: every structural
check passed, the fees frame has at least one row, and the result is the
fused table. -/
lemma aggregateFrames_ok (att : AttFrame) (ass : AssFrame) (fee : FeeFrame)
    (rows : List FusedRow) (h : aggregateFrames att ass fee = .ok rows) :
    att.hasPresent = true ∧ att.hasStudentId = true ∧ ass.hasStudentId = true ∧
    fee.hasStudentId = true ∧ fee.rows ≠ [] ∧ rows = fusedRows att ass fee := by
  unfold aggregateFrames at h
  split_ifs at h with h1 h2 h3 h4 h5
  all_goals
    first
      | exact Except.noConfusion h
      | exact ⟨bool_ne_false h1, bool_ne_false h2, bool_ne_false h3, bool_ne_false h4, h5,
          (Except.ok.inj h).symm⟩

/-- Auto-mapping the attendance values does not change the `student_id`
column. -/
lemma autoMapAtt_sids (a : RawAttFrame) :
    (autoMapAttendanceValues a).rows.map (·.sid) = a.rows.map (·.sid) := by
  simp [autoMapAttendanceValues, List.map_map, Function.comp]

/-- Auto-mapping the assessments values does not change the `student_id`
column. -/
lemma autoMapAss_sids (s : RawAssFrame) :
    (autoMapAssessmentsValues s).rows.map (·.sid) = s.rows.map (·.sid) := by
  simp [autoMapAssessmentsValues, List.map_map, Function.comp]

/-- Auto-mapping the fees values does not change the `student_id` column. -/
lemma autoMapFee_sids (f : RawFeeFrame) :
    (autoMapFeesValues f).rows.map (·.sid) = f.rows.map (·.sid) := by
  simp [autoMapFeesValues, List.map_map, Function.comp]

/-- Mapping ids to fused rows and back to ids is the identity. -/
lemma map_fusedRowFor_sid (att : AttFrame) (ass : AssFrame) (fee : FeeFrame)
    (l : List Nat) : (l.map (fusedRowFor att ass fee)).map (·.sid) = l := by
  induction l with
  | nil => rfl
  | cons a tl ih => simp only [List.map_cons, ih]; rfl

/-- The `student_id` column of the fused table is exactly the join index. -/
lemma fusedRows_map_sid (att : AttFrame) (ass : AssFrame) (fee : FeeFrame) :
    (fusedRows att ass fee).map (·.sid) = fuseIds att ass fee :=
  map_fusedRowFor_sid att ass fee (fuseIds att ass fee)

/-- A list of 0/1 integers sums to something between 0 and its length. -/
lemma sum_indicator_bounds (l : List Int) (h : ∀ x ∈ l, x = 0 ∨ x = 1) :
    0 ≤ l.sum ∧ l.sum ≤ (l.length : Int) := by
  induction l with
  | nil => simp
  | cons a tl ih =>
    obtain ⟨ih1, ih2⟩ := ih fun x hx => h x (List.mem_cons_of_mem a hx)
    have ha := h a (List.mem_cons_self a tl)
    simp only [List.sum_cons, List.length_cons]
    push_cast
    rcases ha with rfl | rfl <;> constructor <;> omega

/-- A student id outside a column has an empty groupby bucket. -/
lemma filter_sid_eq_nil {α : Type} (sid : α → Nat) (rows : List α) (i : Nat)
    (h : i ∉ rows.map sid) : rows.filter (fun r => sid r == i) = [] := by
  refine List.filter_eq_nil_iff.mpr fun r hr => ?_
  intro hbeq
  exact h (List.mem_map.mpr ⟨r, hr, by simpa using hbeq⟩)

/-- A student id present in a column has a nonempty groupby bucket. -/
lemma filter_sid_pos {α : Type} (sid : α → Nat) (rows : List α) (i : Nat)
    (h : i ∈ rows.map sid) : 0 < (rows.filter fun r => sid r == i).length := by
  obtain ⟨r, hr, rfl⟩ := List.mem_map.mp h
  have hmem : r ∈ rows.filter fun x => sid x == sid r :=
    List.mem_filter.mpr ⟨hr, by simp⟩
  exact List.length_pos.mpr (List.ne_nil_of_mem hmem)

/-- With no `score` column, every per-student mean score is the mean of the
synthesized zeros, hence 0. -/
lemma avgScoreOf_false (rows : List AssRow) (i : Nat) : avgScoreOf false rows i = 0 := by
  unfold avgScoreOf
  have hz : ((rows.filter fun r => r.sid == i).map (effScore false)).sum = 0 :=
    List.sum_eq_zero fun x hx => by
      obtain ⟨r, _, rfl⟩ := List.mem_map.mp hx
      simp [effScore]
  rw [hz, zero_div]

/-- With no `amount_due` column, every per-student due total is 0. -/
lemma dueTotalOf_false (rows : List FeeRow) (i : Nat) : dueTotalOf false rows i = 0 :=
  List.sum_eq_zero fun x hx => by
    obtain ⟨r, _, rfl⟩ := List.mem_map.mp hx
    simp [effDue]

/-- With no `amount_paid` column, every per-student paid total is 0. -/
lemma paidTotalOf_false (rows : List FeeRow) (i : Nat) : paidTotalOf false rows i = 0 :=
  List.sum_eq_zero fun x hx => by
    obtain ⟨r, _, rfl⟩ := List.mem_map.mp hx
    simp [effPaid]

/-! ### Claims -/

/-- C1: for every triple of frames accepted without a structural error, the
fused dataset has exactly one row per student_id (the id column is
duplicate-free), its id set is exactly the union of the ids of the three
mapped sources, and a student absent from a source gets 0 for all the
numeric metrics that source contributes. -/
theorem c1_fusion_outer_join (a : RawAttFrame) (s : RawAssFrame) (f : RawFeeFrame)
    (rows : List FusedRow) (h : fuseFromFrames a s f = .ok rows) :
    (rows.map (·.sid)).Nodup
    ∧ (∀ i : Nat, i ∈ rows.map (·.sid) ↔
        i ∈ a.rows.map (·.sid) ∨ i ∈ s.rows.map (·.sid) ∨ i ∈ f.rows.map (·.sid))
    ∧ (∀ r ∈ rows,
        (r.sid ∉ a.rows.map (·.sid) →
          r.attendance_rate = 0 ∧ r.days_present = 0 ∧ r.days_total = 0)
        ∧ (r.sid ∉ s.rows.map (·.sid) → r.avg_score = 0)
        ∧ (r.sid ∉ f.rows.map (·.sid) →
          r.balance_outstanding = 0 ∧ r.amount_due_total = 0 ∧ r.amount_paid_total = 0)) := by
  obtain ⟨h1, h2, h3, h4, _hne, hrows⟩ := aggregateFrames_ok _ _ _ _ h
  subst hrows
  refine ⟨?_, ?_, ?_⟩
  · rw [fusedRows_map_sid]
    exact List.nodup_dedup _
  · intro i
    rw [fusedRows_map_sid]
    unfold fuseIds
    simp [sidsOf, List.mem_dedup, List.mem_append, autoMapAtt_sids, autoMapAss_sids,
      autoMapFee_sids, or_assoc]
  · intro r hr
    obtain ⟨i, _, rfl⟩ := List.mem_map.mp hr
    have hsid : (fusedRowFor (autoMapAttendanceValues a) (autoMapAssessmentsValues s)
        (autoMapFeesValues f) i).sid = i := rfl
    rw [hsid]
    refine ⟨?_, ?_, ?_⟩
    · intro hna
      have hni : i ∉ sidsOf ((autoMapAttendanceValues a).rows.map (·.sid)) := by
        rw [autoMapAtt_sids]
        simpa [sidsOf, List.mem_dedup] using hna
      simp [fusedRowFor, hni]
    · intro hns
      have hni : i ∉ sidsOf ((autoMapAssessmentsValues s).rows.map (·.sid)) := by
        rw [autoMapAss_sids]
        simpa [sidsOf, List.mem_dedup] using hns
      simp [fusedRowFor, hni]
    · intro hnf
      have hni : i ∉ sidsOf ((autoMapFeesValues f).rows.map (·.sid)) := by
        rw [autoMapFee_sids]
        simpa [sidsOf, List.mem_dedup] using hnf
      simp [fusedRowFor, hni]

/-- Witness for C1: scenario E — a student (sid 7) appearing only in the
fees file still appears in the fused output, whose id column is
duplicate-free, with attendance and assessment metrics zero-filled. -/
theorem c1_fusion_outer_join_witness :
    ((fusedRows (autoMapAttendanceValues ⟨true, true, []⟩)
        (autoMapAssessmentsValues ⟨true, true, []⟩)
        (autoMapFeesValues ⟨true, true, true, [⟨7, some 100, some 40⟩]⟩)).map (·.sid)).Nodup
    ∧ 7 ∈ (fusedRows (autoMapAttendanceValues ⟨true, true, []⟩)
        (autoMapAssessmentsValues ⟨true, true, []⟩)
        (autoMapFeesValues ⟨true, true, true, [⟨7, some 100, some 40⟩]⟩)).map (·.sid)
    ∧ (fusedRowFor (autoMapAttendanceValues ⟨true, true, []⟩)
        (autoMapAssessmentsValues ⟨true, true, []⟩)
        (autoMapFeesValues ⟨true, true, true, [⟨7, some 100, some 40⟩]⟩) 7).attendance_rate = 0
    ∧ (fusedRowFor (autoMapAttendanceValues ⟨true, true, []⟩)
        (autoMapAssessmentsValues ⟨true, true, []⟩)
        (autoMapFeesValues ⟨true, true, true, [⟨7, some 100, some 40⟩]⟩) 7).avg_score = 0 :=
  have H := c1_fusion_outer_join ⟨true, true, []⟩ ⟨true, true, []⟩
    ⟨true, true, true, [⟨7, some 100, some 40⟩]⟩ _ rfl
  have hmem : fusedRowFor (autoMapAttendanceValues ⟨true, true, []⟩)
      (autoMapAssessmentsValues ⟨true, true, []⟩)
      (autoMapFeesValues ⟨true, true, true, [⟨7, some 100, some 40⟩]⟩) 7 ∈
      fusedRows (autoMapAttendanceValues ⟨true, true, []⟩)
        (autoMapAssessmentsValues ⟨true, true, []⟩)
        (autoMapFeesValues ⟨true, true, true, [⟨7, some 100, some 40⟩]⟩) :=
    List.mem_map_of_mem _ (by decide)
  ⟨H.1, (H.2.1 7).mpr (Or.inr (Or.inr (by decide))),
   ((H.2.2 _ hmem).1 (by decide)).1, (H.2.2 _ hmem).2.1 (by decide)⟩

/-- C2: for every fused row and threshold configuration, `score_rules` sets
`r_attendance = 1` exactly when `attendance_rate < min_attendance_rate` (else
0), `r_scores = 1` exactly when `avg_score < min_avg_score`, `r_fees = 1`
exactly when `balance_outstanding > max_balance_outstanding`, and
`rule_risk_points` is their sum, an integer between 0 and 3; for thresholds
{0.80, 50.0, 0.0}, a row with attendance_rate = 0.75, avg_score = 40,
balance_outstanding = 0 gets the indicators (1, 1, 0) and 2 points. -/
theorem c2_rule_indicators (t : RuleThresholds) (r : FusedRow) :
    ((scoreRow t r).r_attendance =
      if r.attendance_rate < t.min_attendance_rate then 1 else 0)
    ∧ ((scoreRow t r).r_scores = if r.avg_score < t.min_avg_score then 1 else 0)
    ∧ ((scoreRow t r).r_fees =
      if r.balance_outstanding > t.max_balance_outstanding then 1 else 0)
    ∧ (scoreRow t r).rule_risk_points =
        (scoreRow t r).r_attendance + (scoreRow t r).r_scores + (scoreRow t r).r_fees
    ∧ 0 ≤ (scoreRow t r).rule_risk_points
    ∧ (scoreRow t r).rule_risk_points ≤ 3
    ∧ ((scoreRow ⟨4 / 5, 50, 0⟩ ⟨1, 3, 4, 3 / 4, 40, 0, 0, 0⟩).r_attendance = 1
      ∧ (scoreRow ⟨4 / 5, 50, 0⟩ ⟨1, 3, 4, 3 / 4, 40, 0, 0, 0⟩).r_scores = 1
      ∧ (scoreRow ⟨4 / 5, 50, 0⟩ ⟨1, 3, 4, 3 / 4, 40, 0, 0, 0⟩).r_fees = 0
      ∧ (scoreRow ⟨4 / 5, 50, 0⟩ ⟨1, 3, 4, 3 / 4, 40, 0, 0, 0⟩).rule_risk_points = 2) := by
  refine ⟨rfl, rfl, rfl, rfl, ?_, ?_, by norm_num [scoreRow]⟩
  · rw [scoreRow_points_eq]; split_ifs <;> omega
  · rw [scoreRow_points_eq]; split_ifs <;> omega

/-- C3: `rule_risk_level` is determined from `rule_risk_points` by the bins
(−1, 0], (0, 1], (1, 3]: 0 points yields "Low", exactly 1 point yields
"Medium", 2 or 3 points yield "High", and "Medium" happens only at exactly
1 point. -/
theorem c3_risk_level_bins (t : RuleThresholds) (r : FusedRow) :
    ((scoreRow t r).rule_risk_points = 0 →
      (scoreRow t r).rule_risk_level = some "Low")
    ∧ ((scoreRow t r).rule_risk_points = 1 →
      (scoreRow t r).rule_risk_level = some "Medium")
    ∧ ((scoreRow t r).rule_risk_points = 2 ∨ (scoreRow t r).rule_risk_points = 3 →
      (scoreRow t r).rule_risk_level = some "High")
    ∧ ((scoreRow t r).rule_risk_level = some "Medium" →
      (scoreRow t r).rule_risk_points = 1) := by
  refine ⟨?_, ?_, ?_, ?_⟩
  · intro h; rw [scoreRow_level_eq, h]; decide
  · intro h; rw [scoreRow_level_eq, h]; decide
  · rintro (h | h) <;> (rw [scoreRow_level_eq, h]; decide)
  · intro h
    rcases scoreRow_points_cases t r with h0 | h1 | h2 | h3
    · rw [scoreRow_level_eq, h0] at h; exact absurd h (by decide)
    · exact h1
    · rw [scoreRow_level_eq, h2] at h; exact absurd h (by decide)
    · rw [scoreRow_level_eq, h3] at h; exact absurd h (by decide)

/-- Witness for C3: concrete rows under the default thresholds hitting each
bin (0 points → Low, 1 → Medium, 2 → High), and the Medium converse. -/
theorem c3_risk_level_bins_witness :
    (scoreRow ⟨1, 50, 0⟩ ⟨1, 0, 0, 1, 60, 0, 0, 0⟩).rule_risk_level = some "Low"
    ∧ (scoreRow ⟨1, 50, 0⟩ ⟨1, 0, 0, 1, 40, 0, 0, 0⟩).rule_risk_level = some "Medium"
    ∧ (scoreRow ⟨1, 50, 0⟩ ⟨1, 0, 0, 0, 40, 0, 0, 0⟩).rule_risk_level = some "High"
    ∧ (scoreRow ⟨1, 50, 0⟩ ⟨1, 0, 0, 1, 40, 0, 0, 0⟩).rule_risk_points = 1 :=
  ⟨(c3_risk_level_bins ⟨1, 50, 0⟩ ⟨1, 0, 0, 1, 60, 0, 0, 0⟩).1 (by norm_num [scoreRow]),
   (c3_risk_level_bins ⟨1, 50, 0⟩ ⟨1, 0, 0, 1, 40, 0, 0, 0⟩).2.1 (by norm_num [scoreRow]),
   (c3_risk_level_bins ⟨1, 50, 0⟩ ⟨1, 0, 0, 0, 40, 0, 0, 0⟩).2.2.1
     (Or.inl (by norm_num [scoreRow])),
   (c3_risk_level_bins ⟨1, 50, 0⟩ ⟨1, 0, 0, 1, 40, 0, 0, 0⟩).2.2.2
     (by norm_num [scoreRow, riskLevel])⟩

/-- C4: for every accepted input, each student's `balance_outstanding` in
the fused output equals max(0, total amount_due − total amount_paid) over
that student's fee rows, and is never negative; a single fee row with
amount_due 100 and amount_paid 150 yields balance 0, not −50. -/
theorem c4_balance_never_negative (a : RawAttFrame) (s : RawAssFrame) (f : RawFeeFrame)
    (rows : List FusedRow) (h : fuseFromFrames a s f = .ok rows) :
    (∀ r ∈ rows,
      0 ≤ r.balance_outstanding
      ∧ r.balance_outstanding =
          max 0 (dueTotalOf (autoMapFeesValues f).hasDue (autoMapFeesValues f).rows r.sid -
            paidTotalOf (autoMapFeesValues f).hasPaid (autoMapFeesValues f).rows r.sid))
    ∧ fuseFromFrames ⟨true, true, []⟩ ⟨true, true, []⟩
        ⟨true, true, true, [⟨1, some 100, some 150⟩]⟩ =
      .ok [⟨1, 0, 0, 0, 0, 100, 150, 0⟩] := by
  obtain ⟨h1, h2, h3, h4, _hne, hrows⟩ := aggregateFrames_ok _ _ _ _ h
  subst hrows
  constructor
  · intro r hr
    obtain ⟨i, _, rfl⟩ := List.mem_map.mp hr
    have hsid : (fusedRowFor (autoMapAttendanceValues a) (autoMapAssessmentsValues s)
        (autoMapFeesValues f) i).sid = i := rfl
    rw [hsid]
    by_cases hmem : i ∈ sidsOf ((autoMapFeesValues f).rows.map (·.sid))
    · constructor
      · simp only [fusedRowFor, if_pos hmem, balanceOf]
        exact le_max_left 0 _
      · simp [fusedRowFor, hmem, balanceOf]
    · have hnil : (autoMapFeesValues f).rows.filter (fun r => r.sid == i) = [] := by
        refine filter_sid_eq_nil (fun r : FeeRow => r.sid) _ _ ?_
        simpa [sidsOf, List.mem_dedup] using hmem
      constructor
      · simp [fusedRowFor, hmem]
      · simp [fusedRowFor, hmem, dueTotalOf, paidTotalOf, hnil]
  · norm_num [fuseFromFrames, aggregateFrames, fusedRows, fuseIds, sidsOf, fusedRowFor,
      autoMapAttendanceValues, autoMapAssessmentsValues, autoMapFeesValues, coerceNum,
      daysPresentOf, daysTotalOf, attendanceRateOf, avgScoreOf, effScore, dueTotalOf,
      paidTotalOf, effDue, effPaid, balanceOf, List.filter, List.dedup_cons_of_mem,
      List.dedup_cons_of_not_mem]

/-- Witness for C4: scenario C instantiated — the overpaying student's row
has a non-negative balance equal to the clipped difference. -/
theorem c4_balance_never_negative_witness :
    0 ≤ (fusedRowFor (autoMapAttendanceValues ⟨true, true, []⟩)
        (autoMapAssessmentsValues ⟨true, true, []⟩)
        (autoMapFeesValues ⟨true, true, true, [⟨1, some 100, some 150⟩]⟩) 1).balance_outstanding
    ∧ (fusedRowFor (autoMapAttendanceValues ⟨true, true, []⟩)
        (autoMapAssessmentsValues ⟨true, true, []⟩)
        (autoMapFeesValues ⟨true, true, true, [⟨1, some 100, some 150⟩]⟩)
          1).balance_outstanding =
      max 0 (dueTotalOf true (autoMapFeesValues ⟨true, true, true,
          [⟨1, some 100, some 150⟩]⟩).rows 1 -
        paidTotalOf true (autoMapFeesValues ⟨true, true, true,
          [⟨1, some 100, some 150⟩]⟩).rows 1) :=
  (c4_balance_never_negative ⟨true, true, []⟩ ⟨true, true, []⟩
      ⟨true, true, true, [⟨1, some 100, some 150⟩]⟩ _ rfl).1 _
    (List.mem_map_of_mem _ (by decide))

/-- C5: for every accepted input, every fused `attendance_rate` lies in
[0, 1]; for a student with attendance rows it equals days_present /
days_total with a strictly positive denominator (no division by zero), and
a student with no attendance rows gets exactly 0. -/
theorem c5_attendance_rate_in_unit (a : RawAttFrame) (s : RawAssFrame) (f : RawFeeFrame)
    (rows : List FusedRow) (h : fuseFromFrames a s f = .ok rows) :
    ∀ r ∈ rows,
      0 ≤ r.attendance_rate ∧ r.attendance_rate ≤ 1
      ∧ (r.sid ∈ a.rows.map (·.sid) →
          r.attendance_rate = attendanceRateOf (autoMapAttendanceValues a).rows r.sid
          ∧ 0 < daysTotalOf (autoMapAttendanceValues a).rows r.sid)
      ∧ (r.sid ∉ a.rows.map (·.sid) → r.attendance_rate = 0) := by
  obtain ⟨h1, h2, h3, h4, _hne, hrows⟩ := aggregateFrames_ok _ _ _ _ h
  subst hrows
  intro r hr
  obtain ⟨i, _, rfl⟩ := List.mem_map.mp hr
  have hsid : (fusedRowFor (autoMapAttendanceValues a) (autoMapAssessmentsValues s)
      (autoMapFeesValues f) i).sid = i := rfl
  rw [hsid]
  by_cases hmem : i ∈ sidsOf ((autoMapAttendanceValues a).rows.map (·.sid))
  · have hraw : i ∈ a.rows.map (·.sid) := by
      rw [autoMapAtt_sids] at hmem
      simpa [sidsOf, List.mem_dedup] using hmem
    have hmap : i ∈ (autoMapAttendanceValues a).rows.map (·.sid) := by
      rw [autoMapAtt_sids]; exact hraw
    have hpos : 0 < daysTotalOf (autoMapAttendanceValues a).rows i := by
      unfold daysTotalOf
      exact filter_sid_pos (fun r : AttRow => r.sid) _ _ hmap
    have h01 : ∀ x ∈ ((autoMapAttendanceValues a).rows.filter
        fun r => r.sid == i).map (·.present), x = 0 ∨ x = 1 := by
      intro x hx
      obtain ⟨rr, hrr, rfl⟩ := List.mem_map.mp hx
      have hrr2 : rr ∈ (autoMapAttendanceValues a).rows := List.mem_of_mem_filter hrr
      obtain ⟨r0, _, rfl⟩ := List.mem_map.mp hrr2
      simp only [autoMapAttendanceValues] at *
      rw [if_pos h1]
      exact coercePresent_cases r0.present
    obtain ⟨hs0, hs1⟩ := sum_indicator_bounds _ h01
    rw [List.length_map] at hs1
    have hrate0 : 0 ≤ attendanceRateOf (autoMapAttendanceValues a).rows i := by
      unfold attendanceRateOf
      apply div_nonneg
      · exact_mod_cast hs0
      · positivity
    have hrate1 : attendanceRateOf (autoMapAttendanceValues a).rows i ≤ 1 := by
      unfold attendanceRateOf
      rw [div_le_one (by exact_mod_cast hpos)]
      unfold daysPresentOf daysTotalOf
      exact_mod_cast hs1
    refine ⟨?_, ?_, fun _ => ⟨by simp [fusedRowFor, hmem], hpos⟩, fun hc => absurd hraw hc⟩
    · simpa [fusedRowFor, hmem] using hrate0
    · simpa [fusedRowFor, hmem] using hrate1
  · have hraw : i ∉ a.rows.map (·.sid) := by
      rw [autoMapAtt_sids] at hmem
      simpa [sidsOf, List.mem_dedup] using hmem
    refine ⟨by simp [fusedRowFor, hmem], by simp [fusedRowFor, hmem],
      fun hc => absurd hc hraw, fun _ => by simp [fusedRowFor, hmem]⟩

/-- Witness for C5: scenario A — four attendance rows with present tokens
"1","0","1","1" give a rate of 3/4, inside [0, 1], with a positive
denominator (a one-row fees frame keeps the whole run on the success
path). -/
theorem c5_attendance_rate_in_unit_witness :
    0 ≤ (fusedRowFor
        (autoMapAttendanceValues ⟨true, true, [⟨1, "1"⟩, ⟨1, "0"⟩, ⟨1, "1"⟩, ⟨1, "1"⟩]⟩)
        (autoMapAssessmentsValues ⟨true, true, []⟩)
        (autoMapFeesValues ⟨true, true, true, [⟨1, some 0, some 0⟩]⟩) 1).attendance_rate
    ∧ (fusedRowFor
        (autoMapAttendanceValues ⟨true, true, [⟨1, "1"⟩, ⟨1, "0"⟩, ⟨1, "1"⟩, ⟨1, "1"⟩]⟩)
        (autoMapAssessmentsValues ⟨true, true, []⟩)
        (autoMapFeesValues ⟨true, true, true, [⟨1, some 0, some 0⟩]⟩) 1).attendance_rate ≤ 1
    ∧ (fusedRowFor
        (autoMapAttendanceValues ⟨true, true, [⟨1, "1"⟩, ⟨1, "0"⟩, ⟨1, "1"⟩, ⟨1, "1"⟩]⟩)
        (autoMapAssessmentsValues ⟨true, true, []⟩)
        (autoMapFeesValues ⟨true, true, true, [⟨1, some 0, some 0⟩]⟩) 1).attendance_rate =
      attendanceRateOf (autoMapAttendanceValues
        ⟨true, true, [⟨1, "1"⟩, ⟨1, "0"⟩, ⟨1, "1"⟩, ⟨1, "1"⟩]⟩).rows 1 :=
  have H := c5_attendance_rate_in_unit
    ⟨true, true, [⟨1, "1"⟩, ⟨1, "0"⟩, ⟨1, "1"⟩, ⟨1, "1"⟩]⟩ ⟨true, true, []⟩
    ⟨true, true, true, [⟨1, some 0, some 0⟩]⟩ _ rfl _ (List.mem_map_of_mem _ (by decide))
  ⟨H.1, H.2.1, (H.2.2.1 (by decide)).1⟩

/-- C6 (amended): aggregation fails with a fatal, source-named error when
the `student_id` column is absent from a source after mapping, or the
`present` column is absent from attendance (that error lists accepted
synonyms) — but these are not the only failures: even with every required
column present, a fees frame with zero rows fails with an uncaught
`KeyError("amount_due_total")` from the empty groupby-apply (line 247), so
aggregation succeeds exactly when the four columns are present AND the fees
frame has at least one row. Absence of `score`, `amount_due` or
`amount_paid` is never fatal — the column is synthesized as 0.0 and
aggregation proceeds. -/
theorem c6_fatal_errors (att : AttFrame) (ass : AssFrame) (fee : FeeFrame) :
    ((∃ rows, aggregateFrames att ass fee = .ok rows) ↔
      att.hasPresent = true ∧ att.hasStudentId = true ∧ ass.hasStudentId = true ∧
        fee.hasStudentId = true ∧ fee.rows ≠ [])
    ∧ (att.hasPresent = false →
        aggregateFrames att ass fee = .error
          "Attendance file must contain a \x27present\x27 or equivalent column (e.g., status, attended, p/a).")
    ∧ (att.hasPresent = true → att.hasStudentId = false →
        aggregateFrames att ass fee = .error
          "Attendance file must contain a \x27student_id\x27 column.")
    ∧ (att.hasPresent = true → att.hasStudentId = true → ass.hasStudentId = false →
        aggregateFrames att ass fee = .error
          "Assessments file must contain a \x27student_id\x27 column.")
    ∧ (att.hasPresent = true → att.hasStudentId = true → ass.hasStudentId = true →
        fee.hasStudentId = false →
        aggregateFrames att ass fee = .error
          "Fees file must contain a \x27student_id\x27 column.")
    ∧ (att.hasPresent = true → att.hasStudentId = true → ass.hasStudentId = true →
        fee.hasStudentId = true → fee.rows = [] →
        aggregateFrames att ass fee = .error "amount_due_total")
    ∧ (ass.hasScore = false → ∀ rows, aggregateFrames att ass fee = .ok rows →
        ∀ r ∈ rows, r.avg_score = 0)
    ∧ (fee.hasDue = false → ∀ rows, aggregateFrames att ass fee = .ok rows →
        ∀ r ∈ rows, r.amount_due_total = 0)
    ∧ (fee.hasPaid = false → ∀ rows, aggregateFrames att ass fee = .ok rows →
        ∀ r ∈ rows, r.amount_paid_total = 0) := by
  refine ⟨⟨?_, ?_⟩, ?_, ?_, ?_, ?_, ?_, ?_, ?_, ?_⟩
  · rintro ⟨rows, hrows⟩
    obtain ⟨h1, h2, h3, h4, h5, _⟩ := aggregateFrames_ok _ _ _ _ hrows
    exact ⟨h1, h2, h3, h4, h5⟩
  · rintro ⟨h1, h2, h3, h4, h5⟩
    exact ⟨fusedRows att ass fee, by simp [aggregateFrames, h1, h2, h3, h4, h5]⟩
  · intro h1
    simp [aggregateFrames, h1]
  · intro h1 h2
    simp [aggregateFrames, h1, h2]
  · intro h1 h2 h3
    simp [aggregateFrames, h1, h2, h3]
  · intro h1 h2 h3 h4
    simp [aggregateFrames, h1, h2, h3, h4]
  · intro h1 h2 h3 h4 h5
    simp [aggregateFrames, h1, h2, h3, h4, h5]
  · intro hsc rows hrows r hr
    obtain ⟨_, _, _, _, _, hrows2⟩ := aggregateFrames_ok _ _ _ _ hrows
    subst hrows2
    obtain ⟨i, _, rfl⟩ := List.mem_map.mp hr
    simp [fusedRowFor, hsc, avgScoreOf_false]
  · intro hd rows hrows r hr
    obtain ⟨_, _, _, _, _, hrows2⟩ := aggregateFrames_ok _ _ _ _ hrows
    subst hrows2
    obtain ⟨i, _, rfl⟩ := List.mem_map.mp hr
    simp [fusedRowFor, hd, dueTotalOf_false]
  · intro hp rows hrows r hr
    obtain ⟨_, _, _, _, _, hrows2⟩ := aggregateFrames_ok _ _ _ _ hrows
    subst hrows2
    obtain ⟨i, _, rfl⟩ := List.mem_map.mp hr
    simp [fusedRowFor, hp, paidTotalOf_false]

/-- Counterexample for C6 as stated: with every required column present
(all flags true) but a fees frame with zero rows, aggregation still fails —
and with the raw `KeyError` key, not a source-named message — so missing
columns are not the only fatal condition. -/
theorem c6_fatal_errors_counterexample :
    aggregateFrames ⟨true, true, []⟩ ⟨true, true, []⟩ ⟨true, true, true, []⟩ =
      .error "amount_due_total" := rfl

/-- Witness for C6 (amended): each fatal-error branch at a concrete frame,
the empty-fees failure, and a frame without a `score` column whose fused
row has the synthesized mean 0. -/
theorem c6_fatal_errors_witness :
    aggregateFrames ⟨true, false, []⟩ ⟨true, true, []⟩ ⟨true, true, true, []⟩ =
      .error "Attendance file must contain a \x27present\x27 or equivalent column (e.g., status, attended, p/a)."
    ∧ aggregateFrames ⟨false, true, []⟩ ⟨true, true, []⟩ ⟨true, true, true, []⟩ =
      .error "Attendance file must contain a \x27student_id\x27 column."
    ∧ aggregateFrames ⟨true, true, []⟩ ⟨false, true, []⟩ ⟨true, true, true, []⟩ =
      .error "Assessments file must contain a \x27student_id\x27 column."
    ∧ aggregateFrames ⟨true, true, []⟩ ⟨true, true, []⟩ ⟨false, true, true, []⟩ =
      .error "Fees file must contain a \x27student_id\x27 column."
    ∧ aggregateFrames ⟨true, true, []⟩ ⟨true, true, [⟨3, 70⟩]⟩ ⟨true, true, true, []⟩ =
      .error "amount_due_total"
    ∧ (fusedRowFor ⟨true, true, []⟩ ⟨true, false, [⟨1, 99⟩]⟩
        ⟨true, true, true, [⟨2, 5, 5⟩]⟩ 1).avg_score = 0 :=
  ⟨(c6_fatal_errors ⟨true, false, []⟩ ⟨true, true, []⟩ ⟨true, true, true, []⟩).2.1 rfl,
   (c6_fatal_errors ⟨false, true, []⟩ ⟨true, true, []⟩ ⟨true, true, true, []⟩).2.2.1 rfl rfl,
   (c6_fatal_errors ⟨true, true, []⟩ ⟨false, true, []⟩ ⟨true, true, true, []⟩).2.2.2.1
     rfl rfl rfl,
   (c6_fatal_errors ⟨true, true, []⟩ ⟨true, true, []⟩ ⟨false, true, true, []⟩).2.2.2.2.1
     rfl rfl rfl rfl,
   (c6_fatal_errors ⟨true, true, []⟩ ⟨true, true, [⟨3, 70⟩]⟩
       ⟨true, true, true, []⟩).2.2.2.2.2.1 rfl rfl rfl rfl rfl,
   (c6_fatal_errors ⟨true, true, []⟩ ⟨true, false, [⟨1, 99⟩]⟩
       ⟨true, true, true, [⟨2, 5, 5⟩]⟩).2.2.2.2.2.2.1 rfl _ rfl _
     (List.mem_map_of_mem _ (by decide))⟩

/-- C7: the `present` coercion trims and lower-cases the string form, maps
the tokens "1"/"true"/"yes"/"y"/"p" to 1 and "0"/"false"/"no"/"n"/"a" to 0,
sends every other value (unparseable ones and numeric strings outside the
map alike) to 0, and always produces 0 or 1. -/
theorem c7_present_token_map (s : String) :
    (pyLower (pyStrip s) ∈ ["1", "true", "yes", "y", "p"] → coercePresent s = 1)
    ∧ (pyLower (pyStrip s) ∈ ["0", "false", "no", "n", "a"] → coercePresent s = 0)
    ∧ (pyLower (pyStrip s) ∉ ["1", "true", "yes", "y", "p"] →
        pyLower (pyStrip s) ∉ ["0", "false", "no", "n", "a"] → coercePresent s = 0)
    ∧ (coercePresent s = 0 ∨ coercePresent s = 1) := by
  refine ⟨?_, ?_, ?_, coercePresent_cases s⟩
  · intro h
    simp only [List.mem_cons, List.not_mem_nil, or_false] at h
    unfold coercePresent presentTokenMap
    rcases h with h | h | h | h | h <;> rw [h] <;> decide
  · intro h
    simp only [List.mem_cons, List.not_mem_nil, or_false] at h
    unfold coercePresent presentTokenMap
    rcases h with h | h | h | h | h <;> rw [h] <;> decide
  · intro h1 h0
    simp only [List.mem_cons, List.not_mem_nil, or_false, not_or] at h1 h0
    obtain ⟨n1, n2, n3, n4, n5⟩ := h1
    obtain ⟨m1, m2, m3, m4, m5⟩ := h0
    unfold coercePresent presentTokenMap
    simp [n1, n2, n3, n4, n5, m1, m2, m3, m4, m5]

/-- Witness for C7: a mapped truthy token (with surrounding blanks and upper
case), a mapped falsy token, and numeric strings outside the map. -/
theorem c7_present_token_map_witness :
    coercePresent " YES " = 1 ∧ coercePresent "n" = 0 ∧ coercePresent "2" = 0
    ∧ coercePresent "1.0" = 0 :=
  ⟨(c7_present_token_map " YES ").1 (by decide),
   (c7_present_token_map "n").2.1 (by decide),
   (c7_present_token_map "2").2.2.1 (by decide) (by decide),
   (c7_present_token_map "1.0").2.2.1 (by decide) (by decide)⟩

/-- C8: numeric-field coercion sends every unparseable cell to 0.0 rather
than failing or keeping NaN, keeps parseable values, and the coerced zeros
take part in the aggregates: assessments rows [(sid 1, "80"), (sid 1,
unparseable)] fuse to a single row with avg_score = 40 (the companion fees
frame carries one fully-paid row for sid 1, keeping the run on the success
path). -/
theorem c8_numeric_coercion :
    coerceNum none = 0
    ∧ (∀ q : ℚ, coerceNum (some q) = q)
    ∧ fuseFromFrames ⟨true, true, []⟩ ⟨true, true, [⟨1, some 80⟩, ⟨1, none⟩]⟩
        ⟨true, true, true, [⟨1, some 0, some 0⟩]⟩ = .ok [⟨1, 0, 0, 0, 40, 0, 0, 0⟩] :=
  ⟨rfl, fun _ => rfl, by
    norm_num [fuseFromFrames, aggregateFrames, fusedRows, fuseIds, sidsOf, fusedRowFor,
      autoMapAttendanceValues, autoMapAssessmentsValues, autoMapFeesValues, coerceNum,
      daysPresentOf, daysTotalOf, attendanceRateOf, avgScoreOf, effScore, dueTotalOf,
      paidTotalOf, effDue, effPaid, balanceOf, List.filter, List.dedup_cons_of_mem,
      List.dedup_cons_of_not_mem]⟩

/-! ### Helper lemmas for the candidate-loop rename steps -/

/-- A successful `find?` splits the list at the first element satisfying the
predicate: everything before it fails the predicate. -/
lemma find?_first_split (p : String → Bool) :
    ∀ (l : List String) (c : String), l.find? p = some c →
      ∃ l1 l2, l = l1 ++ c :: l2 ∧ ∀ b ∈ l1, p b = false := by
  intro l
  induction l with
  | nil => intro c h; exact absurd h (by simp)
  | cons a tl ih =>
    intro c h
    cases hpa : p a with
    | true =>
      rw [List.find?_cons_of_pos _ hpa] at h
      obtain rfl : a = c := Option.some.inj h
      exact ⟨[], tl, rfl, by simp⟩
    | false =>
      rw [List.find?_cons_of_neg _ (by simp [hpa])] at h
      obtain ⟨l1, l2, hsplit, hl1⟩ := ih c h
      refine ⟨a :: l1, l2, by rw [hsplit]; rfl, ?_⟩
      intro b hb
      rcases List.mem_cons.mp hb with rfl | hb2
      · exact hpa
      · exact hl1 b hb2

/-- Replacing the single occurrence of `c` by a fresh name `canon` leaves
exactly one occurrence of `canon`. -/
lemma count_map_replace (cols : List String) (c canon : String)
    (hnd : cols.Nodup) (hc : c ∈ cols) (hcanon : canon ∉ cols) :
    ((cols.map fun x => if x = c then canon else x).count canon) = 1 := by
  induction cols with
  | nil => exact absurd hc (List.not_mem_nil c)
  | cons a tl ih =>
    rw [List.nodup_cons] at hnd
    rw [List.map_cons, List.count_cons]
    rcases List.mem_cons.mp hc with rfl | hctl
    · rw [if_pos rfl]
      have htl0 : ((tl.map fun x => if x = c then canon else x).count canon) = 0 := by
        refine List.count_eq_zero.mpr ?_
        intro hmem
        obtain ⟨x, hx, hxe⟩ := List.mem_map.mp hmem
        by_cases hxc : x = c
        · exact hnd.1 (hxc ▸ hx)
        · rw [if_neg hxc] at hxe
          exact hcanon (List.mem_cons_of_mem _ (hxe ▸ hx))
      simp [htl0]
    · have hac : a ≠ c := fun hh => hnd.1 (hh ▸ hctl)
      have hca : canon ≠ a := fun hh => hcanon (hh ▸ List.mem_cons_self a tl)
      rw [if_neg hac, ih hnd.2 hctl fun hh => hcanon (List.mem_cons_of_mem _ hh)]
      simp only [add_right_eq_self, ite_eq_right_iff, beq_iff_eq]
      exact fun hh => absurd hh.symm hca

/-- When no candidate matches, the rename step leaves the headers as-is. -/
lemma renameFirstMatch_none (cands : List String) (canon : String) (cols : List String)
    (h : cands.find? (fun x => decide (x ∈ cols)) = none) :
    renameFirstMatch cands canon cols = cols := by
  unfold renameFirstMatch
  rw [h]

/-- When a candidate matches, the canonical name appears in the result. -/
lemma renameFirstMatch_canon_mem (cands : List String) (canon : String)
    (cols : List String) (c : String)
    (hfind : cands.find? (fun x => decide (x ∈ cols)) = some c) :
    canon ∈ renameFirstMatch cands canon cols := by
  unfold renameFirstMatch
  rw [hfind]
  have hc : c ∈ cols := by
    have hp := List.find?_some hfind
    simpa using hp
  exact List.mem_map.mpr ⟨c, hc, by simp⟩

/-- The winning candidate's old name is gone from the result (unless it
coincides with the canonical name). -/
lemma renameFirstMatch_winner_not_mem (cands : List String) (canon : String)
    (cols : List String) (c : String)
    (hfind : cands.find? (fun x => decide (x ∈ cols)) = some c)
    (hne : c ≠ canon) :
    c ∉ renameFirstMatch cands canon cols := by
  unfold renameFirstMatch
  rw [hfind]
  intro hmem
  obtain ⟨x, hx, hxe⟩ := List.mem_map.mp hmem
  by_cases hxc : x = c
  · rw [if_pos hxc] at hxe
    exact hne hxe.symm
  · rw [if_neg hxc] at hxe
    exact hxc hxe

/-- A name that is not in the header list and differs from the canonical
name is not introduced by a rename step. -/
lemma renameFirstMatch_not_mem (cands : List String) (canon x : String)
    (cols : List String) (hx : x ∉ cols) (hxcanon : x ≠ canon) :
    x ∉ renameFirstMatch cands canon cols := by
  unfold renameFirstMatch
  cases hfind : cands.find? (fun cc => decide (cc ∈ cols)) with
  | none => exact hx
  | some c =>
    intro hmem
    obtain ⟨y, hy, hye⟩ := List.mem_map.mp hmem
    by_cases hyc : y = c
    · rw [if_pos hyc] at hye
      exact hxcanon hye.symm
    · rw [if_neg hyc] at hye
      exact hx (hye ▸ hy)

/-- Membership of a name that is neither a candidate nor the canonical name
is untouched by a rename step. -/
lemma renameFirstMatch_mem_iff (cands : List String) (canon x : String)
    (cols : List String) (hnc : x ∉ cands) (hxcanon : x ≠ canon) :
    x ∈ renameFirstMatch cands canon cols ↔ x ∈ cols := by
  unfold renameFirstMatch
  cases hfind : cands.find? (fun cc => decide (cc ∈ cols)) with
  | none => exact Iff.rfl
  | some c =>
    constructor
    · intro hmem
      obtain ⟨y, hy, hye⟩ := List.mem_map.mp hmem
      by_cases hyc : y = c
      · rw [if_pos hyc] at hye
        exact absurd hye.symm hxcanon
      · rw [if_neg hyc] at hye
        exact hye ▸ hy
    · intro hxcols
      have hxc : x ≠ c := fun hh => hnc (hh ▸ List.mem_of_find?_eq_some hfind)
      exact List.mem_map.mpr ⟨x, hxcols, if_neg hxc⟩

/-- C9: each candidate loop scans its priority list in order and renames
only the first candidate present in the headers to the canonical name;
matching candidates further down the list keep their columns untouched (no
merging), and exactly one column carries the canonical name afterwards; on
a real fees header list, "paid" wins and "fee_paid" is left alone. -/
theorem c9_first_candidate_wins (cands : List String) (canon : String)
    (cols : List String) (c : String)
    (hnd : cols.Nodup)
    (hfind : cands.find? (fun x => decide (x ∈ cols)) = some c)
    (hcanon : canon ∉ cols) :
    renameFirstMatch cands canon cols = cols.map (fun x => if x = c then canon else x)
    ∧ c ∈ cands ∧ c ∈ cols
    ∧ (∃ pre post, cands = pre ++ c :: post ∧ ∀ b ∈ pre, b ∉ cols)
    ∧ (∀ d ∈ cols, d ≠ c → d ∈ renameFirstMatch cands canon cols)
    ∧ (renameFirstMatch cands canon cols).count canon = 1
    ∧ autoMapFeesCols ["paid", "fee_paid", "regno"] =
        ["amount_paid", "fee_paid", "student_id"] := by
  have heq : renameFirstMatch cands canon cols =
      cols.map (fun x => if x = c then canon else x) := by
    unfold renameFirstMatch
    rw [hfind]
  have hccols : c ∈ cols := by
    have hp := List.find?_some hfind
    simpa using hp
  refine ⟨heq, List.mem_of_find?_eq_some hfind, hccols, ?_, ?_, ?_, by decide⟩
  · obtain ⟨l1, l2, hsplit, hl1⟩ := find?_first_split _ cands c hfind
    exact ⟨l1, l2, hsplit, fun b hb => of_decide_eq_false (hl1 b hb)⟩
  · intro d hd hdc
    rw [heq]
    exact List.mem_map.mpr ⟨d, hd, if_neg hdc⟩
  · rw [heq]
    exact count_map_replace cols c canon hnd hccols hcanon

/-- Witness for C9: on the fees student-id loop over headers
["regno", "admission_no", "x"], "regno" is the first match, is renamed, and
the canonical name appears exactly once. -/
theorem c9_first_candidate_wins_witness :
    renameFirstMatch studentIdCands "student_id" ["regno", "admission_no", "x"] =
      (["regno", "admission_no", "x"].map fun x => if x = "regno" then "student_id" else x)
    ∧ (renameFirstMatch studentIdCands "student_id"
        ["regno", "admission_no", "x"]).count "student_id" = 1 :=
  ⟨(c9_first_candidate_wins studentIdCands "student_id" ["regno", "admission_no", "x"]
      "regno" (by decide) (by decide) (by decide)).1,
   (c9_first_candidate_wins studentIdCands "student_id" ["regno", "admission_no", "x"]
      "regno" (by decide) (by decide) (by decide)).2.2.2.2.2.1⟩

/-- C10: in assessments auto-mapping the fields are resolved in the order
student_id, student_name, student_language, assessment_name, score; since
"name" is a candidate for both student_name and assessment_name and
student_name is resolved first, a table with a "name" column (and no
"student_name"/"full_name") has it renamed to student_name, leaving nothing
for the assessment_name loop to take from it: assessment_name only appears
if one of its other candidates was present. -/
theorem c10_name_goes_to_student_name (cols : List String)
    (hname : "name" ∈ cols)
    (hsn : "student_name" ∉ cols)
    (_hfn : "full_name" ∉ cols) :
    "student_name" ∈ autoMapAssessmentsCols cols
    ∧ "name" ∉ autoMapAssessmentsCols cols
    ∧ ("assessment_name" ∈ autoMapAssessmentsCols cols ↔
        "assessment_name" ∈ cols ∨ "exam" ∈ cols ∨ "test" ∈ cols ∨
        "assessment" ∈ cols ∨ "component" ∈ cols) := by
  unfold autoMapAssessmentsCols
  set s1 := renameFirstMatch studentIdCands "student_id" cols with hs1
  set s2 := renameFirstMatch studentNameCands "student_name" s1 with hs2
  set s3 := renameFirstMatch studentLanguageCands "student_language" s2 with hs3
  set s4 := renameFirstMatch assessmentNameCands "assessment_name" s3 with hs4
  have hname1 : "name" ∈ s1 :=
    (renameFirstMatch_mem_iff _ _ _ _ (by decide) (by decide)).mpr hname
  have hsn1 : "student_name" ∉ s1 :=
    renameFirstMatch_not_mem _ _ _ _ hsn (by decide)
  have hfind2 : studentNameCands.find? (fun y => decide (y ∈ s1)) = some "name" := by
    unfold studentNameCands
    rw [List.find?_cons_of_neg _ (by simpa using hsn1),
      List.find?_cons_of_pos _ (by simpa using hname1)]
  have hsn2 : "student_name" ∈ s2 := renameFirstMatch_canon_mem _ _ _ _ hfind2
  have hname2 : "name" ∉ s2 := renameFirstMatch_winner_not_mem _ _ _ _ hfind2 (by decide)
  have hsn3 : "student_name" ∈ s3 :=
    (renameFirstMatch_mem_iff _ _ _ _ (by decide) (by decide)).mpr hsn2
  have hname3 : "name" ∉ s3 := renameFirstMatch_not_mem _ _ _ _ hname2 (by decide)
  have hsn4 : "student_name" ∈ s4 :=
    (renameFirstMatch_mem_iff _ _ _ _ (by decide) (by decide)).mpr hsn3
  have hname4 : "name" ∉ s4 := renameFirstMatch_not_mem _ _ _ _ hname3 (by decide)
  have hinv : ∀ x : String, x ∉ studentIdCands → x ≠ "student_id" →
      x ∉ studentNameCands → x ≠ "student_name" →
      x ∉ studentLanguageCands → x ≠ "student_language" →
      (x ∈ s3 ↔ x ∈ cols) := by
    intro x p1 p2 p3 p4 p5 p6
    rw [hs3, hs2, hs1]
    rw [renameFirstMatch_mem_iff _ _ _ _ p5 p6,
      renameFirstMatch_mem_iff _ _ _ _ p3 p4,
      renameFirstMatch_mem_iff _ _ _ _ p1 p2]
  refine ⟨?_, ?_, ?_⟩
  · exact (renameFirstMatch_mem_iff _ _ _ _ (by decide) (by decide)).mpr hsn4
  · exact renameFirstMatch_not_mem _ _ _ _ hname4 (by decide)
  · rw [renameFirstMatch_mem_iff scoreCands "score" "assessment_name" s4
      (by decide) (by decide)]
    constructor
    · intro hmem4
      cases hfind4 : assessmentNameCands.find? (fun y => decide (y ∈ s3)) with
      | none =>
        rw [hs4, renameFirstMatch_none _ _ _ hfind4] at hmem4
        exact Or.inl ((hinv "assessment_name" (by decide) (by decide) (by decide)
          (by decide) (by decide) (by decide)).mp hmem4)
      | some cc =>
        have hcands : cc ∈ assessmentNameCands := List.mem_of_find?_eq_some hfind4
        have hcc3 : cc ∈ s3 := by
          have hp := List.find?_some hfind4
          simpa using hp
        have hccname : cc ≠ "name" := fun hh => hname3 (hh ▸ hcc3)
        have hcands2 : cc ∈ ["assessment_name", "exam", "test", "assessment",
            "component", "name"] := hcands
        fin_cases hcands2
        · exact Or.inl ((hinv "assessment_name" (by decide) (by decide) (by decide)
            (by decide) (by decide) (by decide)).mp hcc3)
        · exact Or.inr (Or.inl ((hinv "exam" (by decide) (by decide) (by decide)
            (by decide) (by decide) (by decide)).mp hcc3))
        · exact Or.inr (Or.inr (Or.inl ((hinv "test" (by decide) (by decide) (by decide)
            (by decide) (by decide) (by decide)).mp hcc3)))
        · exact Or.inr (Or.inr (Or.inr (Or.inl ((hinv "assessment" (by decide) (by decide)
            (by decide) (by decide) (by decide) (by decide)).mp hcc3))))
        · exact Or.inr (Or.inr (Or.inr (Or.inr ((hinv "component" (by decide) (by decide)
            (by decide) (by decide) (by decide) (by decide)).mp hcc3))))
        · exact absurd rfl hccname
    · intro hx
      have hsome : ∃ cc, assessmentNameCands.find? (fun y => decide (y ∈ s3)) = some cc := by
        refine Option.isSome_iff_exists.mp ?_
        rw [List.find?_isSome]
        rcases hx with hx | hx | hx | hx | hx
        · exact ⟨"assessment_name", by decide, by
            simpa using (hinv "assessment_name" (by decide) (by decide) (by decide)
              (by decide) (by decide) (by decide)).mpr hx⟩
        · exact ⟨"exam", by decide, by
            simpa using (hinv "exam" (by decide) (by decide) (by decide)
              (by decide) (by decide) (by decide)).mpr hx⟩
        · exact ⟨"test", by decide, by
            simpa using (hinv "test" (by decide) (by decide) (by decide)
              (by decide) (by decide) (by decide)).mpr hx⟩
        · exact ⟨"assessment", by decide, by
            simpa using (hinv "assessment" (by decide) (by decide) (by decide)
              (by decide) (by decide) (by decide)).mpr hx⟩
        · exact ⟨"component", by decide, by
            simpa using (hinv "component" (by decide) (by decide) (by decide)
              (by decide) (by decide) (by decide)).mpr hx⟩
      obtain ⟨cc, hcc⟩ := hsome
      rw [hs4]
      exact renameFirstMatch_canon_mem _ _ _ _ hcc

/-- Witness for C10: the header list ["id", "name", "marks"] — "name" ends
up as student_name, and assessment_name is assigned exactly when one of its
non-"name" candidates was present (here: none). -/
theorem c10_name_goes_to_student_name_witness :
    "student_name" ∈ autoMapAssessmentsCols ["id", "name", "marks"]
    ∧ "name" ∉ autoMapAssessmentsCols ["id", "name", "marks"]
    ∧ ("assessment_name" ∈ autoMapAssessmentsCols ["id", "name", "marks"] ↔
        "assessment_name" ∈ (["id", "name", "marks"] : List String) ∨
        "exam" ∈ (["id", "name", "marks"] : List String) ∨
        "test" ∈ (["id", "name", "marks"] : List String) ∨
        "assessment" ∈ (["id", "name", "marks"] : List String) ∨
        "component" ∈ (["id", "name", "marks"] : List String)) :=
  c10_name_goes_to_student_name ["id", "name", "marks"] (by decide) (by decide) (by decide)

end DropoutRisk
